import Mathlib

/-!
# Verification of the blueprint schema model and result-to-table normalizer

This development embeds the declarative extraction-schema (blueprint) model of
the Energy-Well-Reports repository and the result-to-table normalization built
on it.  The two blueprint JSON documents shipped with the repository
(`operator1_engineering_blueprint.json` and
`operator2_engineering_blueprint.json`, embedded in the notebook file) are
transcribed verbatim as `Schema` values.  The processing helpers
(`source/utils.py` / `source/bda.py`) are not part of the shipped sources, so
the normalizer, validator and batch registration are modelled from the
specification (sections 3, 4.1 and 4.3), as noted on each definition.
-/

/-- A scalar value as it occurs in an extraction result (a JSON scalar). -/
inductive Scalar where
  | str (s : String)
  | num (n : Int)
  | bool (b : Bool)
deriving Repr, DecidableEq

/-- Declared value type of a field (spec section 3, FieldSpec.valueType). -/
inductive VType where
  | string
  | number
  | boolean
  | date
deriving Repr, DecidableEq

/-- Inference mode of a field (spec section 3, FieldSpec.inferenceMode;
`inferenceType` in the blueprint JSON). -/
inductive IMode where
  | explicit
  | inferred
deriving Repr, DecidableEq

/-- One extractable value, as declared in a blueprint `definitions` group. -/
structure FieldSpec where
  name : String
  valueType : VType
  inferenceType : IMode
  instruction : String
deriving Repr, DecidableEq

/-- A named collection of fields (one entry of a blueprint `definitions`). -/
structure GroupSpec where
  fields : List FieldSpec
deriving Repr, DecidableEq

/-- Cardinality of a root property: a plain `$ref` object is `single`, an
`array` with `items.$ref` is `repeated` (spec section 3, GroupSpec). -/
inductive Card where
  | single
  | repeated
deriving Repr, DecidableEq

/-- One root property of a blueprint: a reference into `definitions` with a
top-level instruction and a cardinality (spec section 3, rootProperties). -/
structure RootProp where
  ref : String
  card : Card
  instruction : String
deriving Repr, DecidableEq

/-- The full blueprint for one document class (spec section 3, Schema). -/
structure Schema where
  documentClass : String
  description : String
  definitions : List (String × GroupSpec)
  properties : List (String × RootProp)
deriving Repr, DecidableEq

/-- Association lookup on a list of key/value pairs, first match wins. -/
def lookupA {β : Type} : List (String × β) → String → Option β
  | [], _ => none
  | (k, v) :: rest, key => if k = key then some v else lookupA rest key

/-- One record of an extraction result: a JSON object mapping field names to
scalars.  A field that was not extracted is simply missing from the list. -/
def Record : Type := List (String × Scalar)

/-- The value of one root property in an extraction result: a single record
for `single` root properties, a sequence of records for `repeated` ones. -/
inductive GroupValue where
  | single (r : List (String × Scalar))
  | seq (rs : List (List (String × Scalar)))
deriving Repr, DecidableEq

/-- The external service's response for one document (spec section 3). -/
structure ExtractionResult where
  matchedSchema : String
  values : List (String × GroupValue)
deriving Repr, DecidableEq

/-- A normalized table derived from one group of one result.  Each row is a
list of entries aligned with `columns`; `none` is the explicit absent marker
for a field that was missing from the source element. -/
structure TabularView where
  columns : List String
  rows : List (List (Option Scalar))
deriving Repr, DecidableEq

/-- Normalization failures (spec section 7 plus the missing-sort-column
failure raised by the dataframe library's sort on an unknown column). -/
inductive NormError where
  | unknownGroup
  | typeMismatch
  | missingColumn
deriving Repr, DecidableEq

/-- Schema-load and registration failures (spec section 7). -/
inductive SchemaError where
  | unresolvedReference
  | unsupportedType
  | duplicateField
  | duplicateDocumentClass
deriving Repr, DecidableEq

/-- The records a group value contributes to a table: a `single` record is
wrapped as a one-element sequence (spec section 4.3). -/
def recordsOf : GroupValue → List (List (String × Scalar))
  | .single r => [r]
  | .seq rs => rs

/-- Project one source record onto the declared columns.  A field present in
the GroupSpec but absent from the record becomes the explicit absent marker
`none`, never a zero or empty-string default (spec section 4.3). -/
def projectRow (cols : List String) (r : List (String × Scalar)) :
    List (Option Scalar) :=
  cols.map (fun c => lookupA r c)

/-- Index of a column name in the column list. -/
def idxOf : List String → String → Option Nat
  | [], _ => none
  | c :: rest, key =>
      if c = key then some 0 else (idxOf rest key).map (· + 1)

/-- The numeric sort key of a row at column index `i`: `none` when the entry
is absent or out of range, the number otherwise (non-numbers are screened out
by `rowNumOk` before sorting). -/
def numKey (i : Nat) (row : List (Option Scalar)) : Option Int :=
  match row[i]? with
  | some (some (.num n)) => some n
  | _ => none

/-- The entry of a row at column index `i` is a number or absent. -/
def rowNumOk (i : Nat) (row : List (Option Scalar)) : Bool :=
  match row[i]? with
  | some (some (.num _)) => true
  | some (some _) => false
  | _ => true

/-- Total order used to sort rows by a numeric column: numeric ascending,
with the absent marker ordered after every present value (spec section 4.3). -/
def oleb : Option Int → Option Int → Bool
  | some x, some y => x ≤ y
  | some _, none => true
  | none, none => true
  | none, some _ => false

/-- Modelled from the spec: the sorting step of `toTable` (section 4.3; the
shipped implementation `source/utils.py` delegates to the dataframe library's
`sort_values`, which raises on a column name not present in the table).
Rows are sorted by the named column, numeric ascending with absent values
last, using a stable merge sort; a non-numeric value under the sort column is
a `typeMismatch`, an unknown column name a `missingColumn` failure. -/
def sortRows (cols : List String) (rows : List (List (Option Scalar)))
    (key : String) : Except NormError TabularView :=
  match idxOf cols key with
  | none => .error .missingColumn
  | some i =>
      if rows.all (rowNumOk i) then
        .ok ⟨cols, rows.mergeSort (fun a b => oleb (numKey i a) (numKey i b))⟩
      else .error .typeMismatch

/-- Modelled from the spec: the result normalizer `toTable` over one resolved
GroupSpec (section 4.3; the shipped implementation is `get_dataframe` in
`source/utils.py`, absent from the sources).  Resolves `groupName` in the
result's values, wraps a `single` record as one row, projects every record
onto the declared columns turning missing fields into the explicit absent
marker, and optionally sorts by a column. -/
def toTable (g : GroupSpec) (result : ExtractionResult) (groupName : String)
    (sortKey : Option String) : Except NormError TabularView :=
  match lookupA result.values groupName with
  | none => .error .unknownGroup
  | some gv =>
      let cols := g.fields.map FieldSpec.name
      let rows := (recordsOf gv).map (projectRow cols)
      match sortKey with
      | none => .ok ⟨cols, rows⟩
      | some k => sortRows cols rows k

/-- Does a `$ref` string of the blueprint form `#/definitions/Name` resolve
to a key of `definitions`? -/
def refResolves {β : Type} (defs : List (String × β)) (ref : String) : Bool :=
  decide (ref.take 14 = "#/definitions/") && (lookupA defs (ref.drop 14)).isSome

/-- Resolve a group name against a schema: follow the root property's `$ref`
into `definitions` (spec section 4.3, first step of `toTable`). -/
def resolveGroup (s : Schema) (groupName : String) : Option GroupSpec :=
  match lookupA s.properties groupName with
  | none => none
  | some rp =>
      if refResolves s.definitions rp.ref then lookupA s.definitions (rp.ref.drop 14)
      else none

/-- Modelled from the spec: `toTable` against a full schema (section 4.3).
A group name that resolves against neither the schema nor the result's values
is an `unknownGroup` failure. -/
def toTableS (s : Schema) (result : ExtractionResult) (groupName : String)
    (sortKey : Option String) : Except NormError TabularView :=
  match resolveGroup s groupName with
  | none => .error .unknownGroup
  | some g => toTable g result groupName sortKey

/-- Modelled from the spec: one call to `toTable` as a state-passing step.
The second component is the state of the input result after the call; the
normalizer never mutates its input (section 4.3), so the input is returned
unchanged. -/
def toTableCall (s : Schema) (result : ExtractionResult) (groupName : String)
    (sortKey : Option String) :
    Except NormError TabularView × ExtractionResult :=
  (toTableS s result groupName sortKey, result)

/-- Is some document class repeated in the batch? -/
def hasDupClass : List Schema → Bool
  | [] => false
  | s :: rest =>
      rest.any (fun t => t.documentClass = s.documentClass) || hasDupClass rest

/-- Modelled from the spec: `registerBatch` (section 4.1; the shipped
implementation is `create_bda_project` in `source/bda.py`, absent from the
sources).  Registration fails when two schemas of the batch share a
`documentClass`, mirroring the external constraint that one batch must not
contain two blueprints of the same type. -/
def registerBatch (schemas : List Schema) : Except SchemaError (List Schema) :=
  if hasDupClass schemas then .error .duplicateDocumentClass
  else .ok schemas

/-- A field spec as written in a blueprint source document, before
validation: type and inference mode are still raw strings. -/
structure RawField where
  name : String
  vtype : String
  itype : String
  instruction : String
deriving Repr, DecidableEq

/-- A root property as written in a blueprint source document: a `$ref`
string, whether the property is an `array`, and its instruction. -/
structure RawProp where
  ref : String
  isArray : Bool
  instruction : String
deriving Repr, DecidableEq

/-- A blueprint source document before validation (spec section 4.1 input:
`definitions` mapping group names to field specs, `properties` holding the
root references). -/
structure RawSchema where
  documentClass : String
  description : String
  definitions : List (String × List RawField)
  properties : List (String × RawProp)
deriving Repr, DecidableEq

/-- Parse a declared field type; the supported scalar types are exactly
string, number, boolean and date (spec section 3). -/
def parseVType (t : String) : Option VType :=
  if t = "string" then some .string
  else if t = "number" then some .number
  else if t = "boolean" then some .boolean
  else if t = "date" then some .date
  else none

/-- Parse an inference mode string; anything other than `inferred` is read as
the default `explicit`. -/
def parseIMode (t : String) : IMode :=
  if t = "inferred" then .inferred else .explicit

/-- Does some field name repeat within one group's field list? -/
def hasDupName : List RawField → Bool
  | [] => false
  | f :: rest => rest.any (fun g => g.name = f.name) || hasDupName rest

/-- Build the validated FieldSpec from a raw field (only called after
validation established that the type parses). -/
def buildField (f : RawField) : FieldSpec :=
  ⟨f.name, (parseVType f.vtype).getD .string, parseIMode f.itype, f.instruction⟩

/-- Modelled from the spec: `loadSchema` (section 4.1; the shipped loader in
`source/bda.py` is absent from the sources).  Pure parse plus validate:
every `$ref` must resolve to a key of `definitions` (`unresolvedReference`),
every declared field type must be a supported scalar type
(`unsupportedType`), field names within one group must be unique
(`duplicateField`); a valid source yields the in-memory Schema. -/
def loadSchema (r : RawSchema) : Except SchemaError Schema :=
  if ¬ (r.properties.all (fun p => refResolves r.definitions p.2.ref)) then
    .error .unresolvedReference
  else if ¬ (r.definitions.all (fun d => d.2.all (fun f => (parseVType f.vtype).isSome))) then
    .error .unsupportedType
  else if r.definitions.any (fun d => hasDupName d.2) then
    .error .duplicateField
  else
    .ok ⟨r.documentClass, r.description,
      r.definitions.map (fun d => (d.1, ⟨d.2.map buildField⟩)),
      r.properties.map (fun p =>
        (p.1, ⟨p.2.ref, if p.2.isArray then .repeated else .single, p.2.instruction⟩))⟩

/-- The `operator1_engineering_blueprint.json` shipped with the repository,
transcribed from the source. -/
def operator1Blueprint : Schema :=
  { documentClass := "Engineering Report"
    description := "Blueprint for extracting comprehensive completion data from hydraulic fracturing reports including well details, perforation data, stimulation parameters, and water usage"
    definitions := [
      ("Completion_Summary", ⟨[
        ⟨"Water", .number, .explicit, "Extract the water pumped from the stimulation table only on the wellbore diagram page"⟩,
        ⟨"Proppant_Volume", .number, .explicit, "Extract the proppant volume pumped from the stimulation table only on the wellbore diagram page"⟩]⟩),
      ("WellIdentification", ⟨[
        ⟨"API_Number", .string, .explicit, "Extract the API well number from the wellbore diagram or header section"⟩,
        ⟨"Well_Name", .string, .explicit, "Extract the complete well name including lease name and well number (e.g., Smith #1H) from the wellbore diagram or header"⟩,
        ⟨"Operator", .string, .explicit, "Extract the operating company name from the report header or wellbore diagram"⟩,
        ⟨"Field", .string, .explicit, "Extract the field name where the well is located from the header section"⟩,
        ⟨"County_Parish", .string, .explicit, "Extract the county or parish name from the well location information"⟩,
        ⟨"State", .string, .explicit, "Extract the state where the well is located from the header information"⟩,
        ⟨"Spud_Date", .string, .explicit, "Extract the spud date from the report header"⟩,
        ⟨"Measured_Depth", .string, .explicit, "Extract the measured depth from the report header"⟩,
        ⟨"Product_Type", .string, .explicit, "Extract whether this is a oil producing type or gas producing type"⟩]⟩),
      ("Casing_Summary", ⟨[
        ⟨"Size", .string, .explicit, "Extract the casing diameter size from the casing record (i.e. 5 1/2)"⟩,
        ⟨"Weight", .number, .explicit, "Extract the casing weight from the casing record"⟩,
        ⟨"Depth", .number, .explicit, "Extract the depth to for the casing record "⟩]⟩),
      ("Perforation_Data", ⟨[
        ⟨"Top Perf", .number, .explicit, "Extract the top perf from the perforation summary only on the wellbore diagram page"⟩,
        ⟨"Bottom Perf", .number, .explicit, "Extract the bottom perf from the perforation summary only on the wellbore diagram page"⟩]⟩)]
    properties := [
      ("Well_Information", ⟨"#/definitions/WellIdentification", .single, "Extract all well identification and location information from the report header and wellbore diagram"⟩),
      ("Perforation_Data", ⟨"#/definitions/Perforation_Data", .repeated, "Extract perforation interval data for each stage from the wellbore diagram, including top/bottom depths and stage numbers"⟩),
      ("Completion_Summary", ⟨"#/definitions/Completion_Summary", .repeated, "Extract the completion data from the wellbore diagram page for each stage in the fracturing job"⟩),
      ("Casing_Summary", ⟨"#/definitions/Casing_Summary", .repeated, "Extract the casing details from the report header page."⟩)] }

/-- The `operator2_engineering_blueprint.json` shipped with the repository,
transcribed from the source. -/
def operator2Blueprint : Schema :=
  { documentClass := "Engineering Report"
    description := "Blueprint for extracting comprehensive completion data from hydraulic fracturing reports including well details, perforation data, stimulation parameters, and water usage"
    definitions := [
      ("Completion_Summary", ⟨[
        ⟨"Stage_Length", .number, .explicit, "Extract the Stg length for each stage of the frac job"⟩,
        ⟨"Proppant_Volume", .number, .explicit, "Extract the total proppant volume (K#) pumped for all the stages (STG) of the frac job ony from the wellbore diagram page"⟩]⟩),
      ("WellIdentification", ⟨[
        ⟨"API_Number", .string, .explicit, "Extract the API well number from the wellbore diagram or header section"⟩,
        ⟨"Well_Name", .string, .explicit, "Extract the complete well name including lease name and well number (e.g., Smith #1H) from the wellbore diagram or header"⟩,
        ⟨"Operator", .string, .explicit, "Extract the operating company name from the report header or wellbore diagram"⟩,
        ⟨"Field", .string, .explicit, "Extract the field name where the well is located from the header section"⟩,
        ⟨"County_Parish", .string, .explicit, "Extract the county or parish name from the well location information"⟩,
        ⟨"State", .string, .explicit, "Extract the state where the well is located from the header information"⟩,
        ⟨"Spud_Date", .string, .explicit, "Extract the spud date from the report header"⟩,
        ⟨"Measured_Depth", .string, .explicit, "Extract the measured depth from the report header"⟩,
        ⟨"Product_Type", .string, .explicit, "Extract whether this is a oil producing type or gas producing type"⟩]⟩),
      ("Casing_Summary", ⟨[
        ⟨"Size", .string, .explicit, "Extract the casing diameter size from the casing record (i.e. 5 1/2)"⟩,
        ⟨"Weight", .number, .explicit, "Extract the casing weight from the casing record"⟩,
        ⟨"Depth", .number, .explicit, "Extract the depth to for the casing record "⟩]⟩),
      ("Perforation_Data", ⟨[
        ⟨"Top_Perf", .number, .explicit, "Extract the top (shallowest) perforation depth in feet MD from the perforation summary or wellbore diagram"⟩,
        ⟨"Bottom_Perf", .number, .explicit, "Extract the bottom (deepest) perforation depth in feet MD from the perforation summary or wellbore diagram"⟩]⟩),
      ("Water_Sources", ⟨[
        ⟨"Source_Name", .string, .explicit, "Extract the name or identifier of the water source from the water supply section"⟩,
        ⟨"Supply_Type", .string, .explicit, "Extract the water supply type (public, private, surface water, groundwater) from the water supply section"⟩,
        ⟨"Volume_Used", .number, .explicit, "Extract the total volume of water used from this source in barrels from the water supply summary"⟩,
        ⟨"Source_Location", .string, .explicit, "Extract the latitude/longitude coordinates or location description of the water source"⟩]⟩)]
    properties := [
      ("Well_Information", ⟨"#/definitions/WellIdentification", .single, "Extract all well identification and location information from the report header and wellbore diagram"⟩),
      ("Perforation_Data", ⟨"#/definitions/Perforation_Data", .repeated, "Extract perforation interval data for each stage from the wellbore diagram, including top/bottom depths and stage numbers"⟩),
      ("Water_Sources", ⟨"#/definitions/Water_Sources", .repeated, "Extract water supply information from the Hydraulic Fracture Stimulation section including source names, types, volumes, and locations"⟩),
      ("Completion_Summary", ⟨"#/definitions/Completion_Summary", .repeated, "Extract the completion data from the wellbore diagram page for each stage in the fracturing job"⟩),
      ("Casing_Summary", ⟨"#/definitions/Casing_Summary", .repeated, "Extract the casing details from the report header page."⟩)] }

/-- No duplicated document class is exactly a Nodup class list. -/
theorem hasDupClass_false_iff (ss : List Schema) :
    hasDupClass ss = false ↔ (ss.map Schema.documentClass).Nodup := by
  induction ss with
  | nil => simp [hasDupClass]
  | cons s rest ih =>
      simp only [hasDupClass, Bool.or_eq_false_iff, List.map_cons, List.nodup_cons, ih,
        List.any_eq_false, List.mem_map]
      constructor
      · rintro ⟨h1, h2⟩
        refine ⟨?_, h2⟩
        rintro ⟨t, ht, he⟩
        exact absurd he (by simpa using h1 t ht)
      · rintro ⟨h1, h2⟩
        refine ⟨?_, h2⟩
        intro t ht
        simpa using fun he => h1 ⟨t, ht, he⟩

/-- C6: `registerBatch` fails with `duplicateDocumentClass` exactly when two
or more schemas of the batch share a document class (the class list is not
nodup), and succeeds on every batch with pairwise-distinct document
classes. -/
theorem registerBatch_duplicate_class_iff (ss : List Schema) :
    (registerBatch ss = .error .duplicateDocumentClass ↔
      ¬ (ss.map Schema.documentClass).Nodup)
    ∧ ((ss.map Schema.documentClass).Nodup → registerBatch ss = .ok ss) := by
  constructor
  · rw [registerBatch]
    rcases h : hasDupClass ss with _ | _
    · rw [hasDupClass_false_iff] at h
      simp [h]
    · have : ¬ hasDupClass ss = false := by simp [h]
      rw [hasDupClass_false_iff] at this
      simp [h, this]
  · intro h
    rw [registerBatch, if_neg]
    simp only [Bool.not_eq_true]
    exact (hasDupClass_false_iff ss).mpr h

/-- Witness for C6: the two shipped blueprints both declare the document
class "Engineering Report", so registering them together fails, while a
batch holding only the first succeeds. -/
theorem registerBatch_duplicate_class_iff_witness :
    registerBatch [operator1Blueprint, operator2Blueprint] =
      .error .duplicateDocumentClass
    ∧ registerBatch [operator1Blueprint] = .ok [operator1Blueprint] :=
  ⟨(registerBatch_duplicate_class_iff [operator1Blueprint, operator2Blueprint]).1.mpr
      (by decide),
   (registerBatch_duplicate_class_iff [operator1Blueprint]).2 (by decide)⟩

/-- C10: in both shipped blueprints, every field of every definitions group
declares the explicit inference mode; no field is declared inferred. -/
theorem blueprints_all_fields_explicit :
    (operator1Blueprint.definitions.all fun d =>
      d.2.fields.all fun f => f.inferenceType = IMode.explicit) = true
    ∧ (operator2Blueprint.definitions.all fun d =>
      d.2.fields.all fun f => f.inferenceType = IMode.explicit) = true := by
  constructor <;> decide

/-- C2: on a repeated group of length N, `toTable` returns the columns in
declared field order and exactly N rows, each with exactly one entry per
column. -/
theorem toTable_shape (g : GroupSpec) (result : ExtractionResult)
    (name : String) (rs : List (List (String × Scalar)))
    (h : lookupA result.values name = some (GroupValue.seq rs)) :
    toTable g result name none =
      .ok ⟨g.fields.map FieldSpec.name, rs.map (projectRow (g.fields.map FieldSpec.name))⟩
    ∧ (rs.map (projectRow (g.fields.map FieldSpec.name))).length = rs.length
    ∧ ∀ row ∈ rs.map (projectRow (g.fields.map FieldSpec.name)),
        row.length = (g.fields.map FieldSpec.name).length := by
  refine ⟨by simp [toTable, h, recordsOf], by simp, ?_⟩
  intro row hrow
  simp only [List.mem_map] at hrow
  obtain ⟨rec, _, rfl⟩ := hrow
  simp [projectRow]

/-- A two-element Completion_Summary result, shaped like the notebook's
operator1 output. -/
def completionExampleResult : ExtractionResult :=
  { matchedSchema := "operator1_engineering_blueprint"
    values := [("Completion_Summary", GroupValue.seq [
      [("Water", Scalar.num 52000), ("Proppant_Volume", Scalar.num 1200)],
      [("Water", Scalar.num 61000), ("Proppant_Volume", Scalar.num 1350)]])] }

/-- The Completion_Summary group of the operator1 blueprint. -/
def op1CompletionGroup : GroupSpec :=
  (lookupA operator1Blueprint.definitions "Completion_Summary").getD ⟨[]⟩

/-- Witness for C2 at the operator1 Completion_Summary group. -/
theorem toTable_shape_witness :
    toTable op1CompletionGroup completionExampleResult "Completion_Summary" none =
      .ok ⟨op1CompletionGroup.fields.map FieldSpec.name,
        [[("Water", Scalar.num 52000), ("Proppant_Volume", Scalar.num 1200)],
         [("Water", Scalar.num 61000), ("Proppant_Volume", Scalar.num 1350)]].map
          (projectRow (op1CompletionGroup.fields.map FieldSpec.name))⟩
    ∧ ([[("Water", Scalar.num 52000), ("Proppant_Volume", Scalar.num 1200)],
        [("Water", Scalar.num 61000), ("Proppant_Volume", Scalar.num 1350)]].map
          (projectRow (op1CompletionGroup.fields.map FieldSpec.name))).length = 2 :=
  ⟨(toTable_shape op1CompletionGroup completionExampleResult "Completion_Summary" _
      (by decide)).1,
   ((toTable_shape op1CompletionGroup completionExampleResult "Completion_Summary" _
      (by decide)).2.1).trans (by decide)⟩

/-- C4: one `toTable` call returns the input result unchanged, and a second
call on the state left by the first yields a structurally equal view
(idempotent and side-effect-free). -/
theorem toTable_idempotent_pure (s : Schema) (result : ExtractionResult)
    (name : String) (k : Option String) :
    (toTableCall s result name k).2 = result
    ∧ (toTableCall s ((toTableCall s result name k).2) name k).1 =
        (toTableCall s result name k).1 :=
  ⟨rfl, rfl⟩

/-- C5: a group name not present in the result's values makes `toTable` fail
with `unknownGroup`, leaving the input result unchanged. -/
theorem toTable_unknown_group (s : Schema) (result : ExtractionResult)
    (name : String) (k : Option String)
    (h : lookupA result.values name = none) :
    toTableCall s result name k = (.error .unknownGroup, result) := by
  unfold toTableCall toTableS
  rcases hr : resolveGroup s name with _ | g
  · rfl
  · simp [toTable, h]

/-- Witness for C5: requesting the group "NoSuchGroup" fails with
`unknownGroup` and leaves the result unchanged. -/
theorem toTable_unknown_group_witness :
    toTableCall operator1Blueprint completionExampleResult "NoSuchGroup" none =
      (.error .unknownGroup, completionExampleResult) :=
  toTable_unknown_group operator1Blueprint completionExampleResult "NoSuchGroup" none
    (by decide)

/-- C8: a root property declared `single` whose value is the lone record is
wrapped as a one-row table. -/
theorem toTable_single_wraps_one_row (s : Schema) (result : ExtractionResult)
    (name : String) (rp : RootProp) (g : GroupSpec)
    (rec : List (String × Scalar))
    (_hp : lookupA s.properties name = some rp)
    (_hcard : rp.card = Card.single)
    (hg : resolveGroup s name = some g)
    (hv : lookupA result.values name = some (GroupValue.single rec)) :
    toTableS s result name none =
      .ok ⟨g.fields.map FieldSpec.name,
        [projectRow (g.fields.map FieldSpec.name) rec]⟩ := by
  unfold toTableS
  rw [hg]
  simp [toTable, hv, recordsOf]

/-- A single Well_Information record, shaped like the notebook's output. -/
def wellInfoResult : ExtractionResult :=
  { matchedSchema := "operator1_engineering_blueprint"
    values := [("Well_Information", GroupValue.single
      [("API_Number", Scalar.str "1708121049"), ("Well_Name", Scalar.str "Smith 1H")])] }

/-- The Well_Information root property of the operator1 blueprint. -/
def op1WellInfoProp : RootProp :=
  (lookupA operator1Blueprint.properties "Well_Information").getD ⟨"", .single, ""⟩

/-- The WellIdentification group resolved from the operator1 blueprint. -/
def op1WellInfoGroup : GroupSpec :=
  (resolveGroup operator1Blueprint "Well_Information").getD ⟨[]⟩

/-- Witness for C8 at the operator1 Well_Information root property. -/
theorem toTable_single_wraps_one_row_witness :
    toTableS operator1Blueprint wellInfoResult "Well_Information" none =
      .ok ⟨op1WellInfoGroup.fields.map FieldSpec.name,
        [projectRow (op1WellInfoGroup.fields.map FieldSpec.name)
          [("API_Number", Scalar.str "1708121049"), ("Well_Name", Scalar.str "Smith 1H")]]⟩ :=
  toTable_single_wraps_one_row operator1Blueprint wellInfoResult "Well_Information"
    op1WellInfoProp op1WellInfoGroup _ (by decide) (by decide) (by decide) (by decide)

/-- C1: a field declared in the GroupSpec but absent from a source element is
recorded in that element's row as the explicit absent marker `none`. -/
theorem toTable_absent_marker (g : GroupSpec) (result : ExtractionResult)
    (name : String) (rs : List (List (String × Scalar)))
    (rec : List (String × Scalar)) (f : String) (j : Nat)
    (hv : lookupA result.values name = some (GroupValue.seq rs))
    (hmem : rec ∈ rs)
    (hcol : (g.fields.map FieldSpec.name)[j]? = some f)
    (habs : lookupA rec f = none) :
    toTable g result name none =
      .ok ⟨g.fields.map FieldSpec.name, rs.map (projectRow (g.fields.map FieldSpec.name))⟩
    ∧ projectRow (g.fields.map FieldSpec.name) rec ∈
        rs.map (projectRow (g.fields.map FieldSpec.name))
    ∧ (projectRow (g.fields.map FieldSpec.name) rec)[j]? = some none := by
  refine ⟨by simp [toTable, hv, recordsOf], List.mem_map_of_mem _ hmem, ?_⟩
  have hm : (projectRow (g.fields.map FieldSpec.name) rec)[j]? =
      ((g.fields.map FieldSpec.name)[j]?).map (fun c => lookupA rec c) := by
    simp [projectRow, List.getElem?_map]
  rw [hm, hcol, Option.map_some', habs]

/-- The Casing_Summary group of the operator1 blueprint. -/
def casingGroup : GroupSpec :=
  (lookupA operator1Blueprint.definitions "Casing_Summary").getD ⟨[]⟩

/-- The Casing_Summary example result of the specification: the second
element omits the Depth field. -/
def casingExampleResult : ExtractionResult :=
  { matchedSchema := "operator1_engineering_blueprint"
    values := [("Casing_Summary", GroupValue.seq [
      [("Size", Scalar.str "5 1/2"), ("Weight", Scalar.num 17), ("Depth", Scalar.num 12000)],
      [("Size", Scalar.str "7"), ("Weight", Scalar.num 23)]])] }

/-- Witness for C1: on the Casing_Summary example, `toTable` produces two
rows and row 2's Depth entry is the explicit absent marker `none`, not a zero
or an empty string. -/
theorem toTable_absent_marker_witness :
    toTable casingGroup casingExampleResult "Casing_Summary" none =
      .ok ⟨["Size", "Weight", "Depth"],
        [[some (Scalar.str "5 1/2"), some (Scalar.num 17), some (Scalar.num 12000)],
         [some (Scalar.str "7"), some (Scalar.num 23), none]]⟩
    ∧ (projectRow (casingGroup.fields.map FieldSpec.name)
        [("Size", Scalar.str "7"), ("Weight", Scalar.num 23)])[2]? = some none := by
  have h := toTable_absent_marker casingGroup casingExampleResult "Casing_Summary"
    [[("Size", Scalar.str "5 1/2"), ("Weight", Scalar.num 17), ("Depth", Scalar.num 12000)],
     [("Size", Scalar.str "7"), ("Weight", Scalar.num 23)]]
    [("Size", Scalar.str "7"), ("Weight", Scalar.num 23)] "Depth" 2
    (by decide) (by decide) (by decide) (by decide)
  exact ⟨h.1.trans (congrArg Except.ok (by decide)), h.2.2⟩

/-- C7: `loadSchema` fails with `unresolvedReference` whenever some `$ref`
of the properties does not resolve to a key of `definitions`, and succeeds
(a pure parse plus validate) on every source whose references resolve, whose
field types are supported and whose group field names are unique. -/
theorem loadSchema_ref_resolution (r : RawSchema) :
    ((∃ p ∈ r.properties, refResolves r.definitions p.2.ref = false) →
      loadSchema r = .error .unresolvedReference)
    ∧ ((r.properties.all fun p => refResolves r.definitions p.2.ref) = true →
       (r.definitions.all fun d => d.2.all fun f => (parseVType f.vtype).isSome) = true →
       (r.definitions.any fun d => hasDupName d.2) = false →
       loadSchema r = .ok ⟨r.documentClass, r.description,
         r.definitions.map (fun d => (d.1, ⟨d.2.map buildField⟩)),
         r.properties.map (fun p =>
           (p.1, ⟨p.2.ref, if p.2.isArray then .repeated else .single, p.2.instruction⟩))⟩) := by
  constructor
  · rintro ⟨p, hp, href⟩
    have hno : ¬ (r.properties.all fun q => refResolves r.definitions q.2.ref) = true := by
      simp only [List.all_eq_true]
      intro hall
      exact absurd (hall p hp) (by simp [href])
    rw [loadSchema, if_pos hno]
  · intro h1 h2 h3
    rw [loadSchema, if_neg (by simp [h1]), if_neg (by simp [h2]), if_neg (by simp [h3])]

/-- A blueprint source whose Casing_Summary root property references a group
missing from `definitions`. -/
def badBlueprintSource : RawSchema :=
  { documentClass := "Engineering Report"
    description := "Test blueprint with a dangling reference"
    definitions := [("Casing_Summary",
      [⟨"Size", "string", "explicit", "Extract the casing diameter size"⟩])]
    properties := [("Casing_Summary",
      ⟨"#/definitions/Missing_Group", true, "Extract the casing details"⟩)] }

/-- The `operator1_engineering_blueprint.json` source document before
validation, transcribed from the repository with raw type and inference-mode
strings. -/
def operator1BlueprintSource : RawSchema :=
  { documentClass := "Engineering Report"
    description := "Blueprint for extracting comprehensive completion data from hydraulic fracturing reports including well details, perforation data, stimulation parameters, and water usage"
    definitions := [
      ("Completion_Summary", [
        ⟨"Water", "number", "explicit", "Extract the water pumped from the stimulation table only on the wellbore diagram page"⟩,
        ⟨"Proppant_Volume", "number", "explicit", "Extract the proppant volume pumped from the stimulation table only on the wellbore diagram page"⟩]),
      ("WellIdentification", [
        ⟨"API_Number", "string", "explicit", "Extract the API well number from the wellbore diagram or header section"⟩,
        ⟨"Well_Name", "string", "explicit", "Extract the complete well name including lease name and well number (e.g., Smith #1H) from the wellbore diagram or header"⟩,
        ⟨"Operator", "string", "explicit", "Extract the operating company name from the report header or wellbore diagram"⟩,
        ⟨"Field", "string", "explicit", "Extract the field name where the well is located from the header section"⟩,
        ⟨"County_Parish", "string", "explicit", "Extract the county or parish name from the well location information"⟩,
        ⟨"State", "string", "explicit", "Extract the state where the well is located from the header information"⟩,
        ⟨"Spud_Date", "string", "explicit", "Extract the spud date from the report header"⟩,
        ⟨"Measured_Depth", "string", "explicit", "Extract the measured depth from the report header"⟩,
        ⟨"Product_Type", "string", "explicit", "Extract whether this is a oil producing type or gas producing type"⟩]),
      ("Casing_Summary", [
        ⟨"Size", "string", "explicit", "Extract the casing diameter size from the casing record (i.e. 5 1/2)"⟩,
        ⟨"Weight", "number", "explicit", "Extract the casing weight from the casing record"⟩,
        ⟨"Depth", "number", "explicit", "Extract the depth to for the casing record "⟩]),
      ("Perforation_Data", [
        ⟨"Top Perf", "number", "explicit", "Extract the top perf from the perforation summary only on the wellbore diagram page"⟩,
        ⟨"Bottom Perf", "number", "explicit", "Extract the bottom perf from the perforation summary only on the wellbore diagram page"⟩])]
    properties := [
      ("Well_Information", ⟨"#/definitions/WellIdentification", false, "Extract all well identification and location information from the report header and wellbore diagram"⟩),
      ("Perforation_Data", ⟨"#/definitions/Perforation_Data", true, "Extract perforation interval data for each stage from the wellbore diagram, including top/bottom depths and stage numbers"⟩),
      ("Completion_Summary", ⟨"#/definitions/Completion_Summary", true, "Extract the completion data from the wellbore diagram page for each stage in the fracturing job"⟩),
      ("Casing_Summary", ⟨"#/definitions/Casing_Summary", true, "Extract the casing details from the report header page."⟩)] }

set_option maxRecDepth 8000 in
/-- Witness for C7: the dangling reference fails with `unresolvedReference`;
the operator1 blueprint source loads successfully, yielding exactly the
embedded operator1 Schema. -/
theorem loadSchema_ref_resolution_witness :
    loadSchema badBlueprintSource = .error .unresolvedReference
    ∧ loadSchema operator1BlueprintSource = .ok operator1Blueprint :=
  ⟨(loadSchema_ref_resolution badBlueprintSource).1
      ⟨("Casing_Summary", ⟨"#/definitions/Missing_Group", true, "Extract the casing details"⟩),
        by decide, by decide⟩,
   ((loadSchema_ref_resolution operator1BlueprintSource).2
      (by decide) (by decide) (by decide)).trans (congrArg Except.ok (by decide))⟩

/-- Sorting by a key that is not a column fails with `missingColumn`. -/
theorem sortRows_missing (cols : List String) (rows : List (List (Option Scalar)))
    (key : String) (h : idxOf cols key = none) :
    sortRows cols rows key = .error .missingColumn := by
  unfold sortRows
  rw [h]

/-- C9: the operator2 blueprint declares the Perforation_Data fields
`Top_Perf` and `Bottom_Perf`; any table derived from it by `toTable` has
exactly those columns, so the notebook's request to sort that table by the
key "Top Perf" (with a space) fails with a missing-column failure instead of
returning the rows unsorted. -/
theorem op2_sort_top_perf_missing_column (result : ExtractionResult)
    (t : TabularView)
    (h : toTableS operator2Blueprint result "Perforation_Data" none = .ok t) :
    t.columns = ["Top_Perf", "Bottom_Perf"]
    ∧ sortRows t.columns t.rows "Top Perf" = .error .missingColumn := by
  have hg : resolveGroup operator2Blueprint "Perforation_Data" =
      some ⟨[⟨"Top_Perf", .number, .explicit, "Extract the top (shallowest) perforation depth in feet MD from the perforation summary or wellbore diagram"⟩,
             ⟨"Bottom_Perf", .number, .explicit, "Extract the bottom (deepest) perforation depth in feet MD from the perforation summary or wellbore diagram"⟩]⟩ := by
    decide
  unfold toTableS at h
  rw [hg] at h
  unfold toTable at h
  rcases hv : lookupA result.values "Perforation_Data" with _ | gv
  · rw [hv] at h
    cases h
  · rw [hv] at h
    simp only at h
    injection h with h
    subst h
    exact ⟨rfl, sortRows_missing ["Top_Perf", "Bottom_Perf"] _ _ (by decide)⟩

/-- A one-interval Perforation_Data result for the operator2 blueprint. -/
def perfExampleResult : ExtractionResult :=
  { matchedSchema := "operator2_engineering_blueprint"
    values := [("Perforation_Data", GroupValue.seq
      [[("Top_Perf", Scalar.num 5000), ("Bottom_Perf", Scalar.num 5100)]])] }

/-- Witness for C9: on a concrete operator2 result the derived table has the
underscored columns and sorting by "Top Perf" fails. -/
theorem op2_sort_top_perf_missing_column_witness :
    (⟨["Top_Perf", "Bottom_Perf"],
      [[some (Scalar.num 5000), some (Scalar.num 5100)]]⟩ : TabularView).columns =
        ["Top_Perf", "Bottom_Perf"]
    ∧ sortRows ["Top_Perf", "Bottom_Perf"]
        [[some (Scalar.num 5000), some (Scalar.num 5100)]] "Top Perf" =
        .error .missingColumn :=
  op2_sort_top_perf_missing_column perfExampleResult
    ⟨["Top_Perf", "Bottom_Perf"], [[some (Scalar.num 5000), some (Scalar.num 5100)]]⟩
    (by rfl)

/-- `oleb` is reflexive. -/
theorem oleb_refl (a : Option Int) : oleb a a = true := by
  cases a <;> simp [oleb]

/-- `oleb` is transitive. -/
theorem oleb_trans (a b c : Option Int) (h1 : oleb a b = true)
    (h2 : oleb b c = true) : oleb a c = true := by
  cases a <;> cases b <;> cases c <;> simp_all [oleb]
  omega

/-- `oleb` is total. -/
theorem oleb_total (a b : Option Int) : (oleb a b || oleb b a) = true := by
  cases a <;> cases b <;> simp [oleb]
  omega

/-- Unfolding equation of `sortRows` when the sort key is a column. -/
theorem sortRows_found (cols : List String) (rows : List (List (Option Scalar)))
    (key : String) (i : Nat) (hix : idxOf cols key = some i) :
    sortRows cols rows key =
      if rows.all (rowNumOk i) then
        .ok ⟨cols, rows.mergeSort (fun a b => oleb (numKey i a) (numKey i b))⟩
      else .error .typeMismatch := by
  unfold sortRows
  rw [hix]

/-- C3: a successful numeric sort yields rows that are pairwise ordered by
the sort key (so every adjacent pair satisfies `row i <= row i+1`), rows with
an absent key come after every row with a present key, and the sort is
stable: for each key value, the rows carrying it keep their relative source
order. -/
theorem sortRows_sorted_stable (cols : List String)
    (rows : List (List (Option Scalar))) (key : String) (i : Nat)
    (t : TabularView)
    (hix : idxOf cols key = some i)
    (h : sortRows cols rows key = .ok t) :
    t.rows.Pairwise (fun a b => oleb (numKey i a) (numKey i b) = true)
    ∧ t.rows.Pairwise (fun a b => numKey i a = none → numKey i b = none)
    ∧ ∀ v : Option Int,
        t.rows.filter (fun r => numKey i r = v) =
          rows.filter (fun r => numKey i r = v) := by
  rw [sortRows_found cols rows key i hix] at h
  by_cases hall : rows.all (rowNumOk i) = true
  · rw [if_pos hall] at h
    injection h with h
    subst h
    have trans : ∀ a b c : List (Option Scalar),
        oleb (numKey i a) (numKey i b) → oleb (numKey i b) (numKey i c) →
        oleb (numKey i a) (numKey i c) := fun a b c h1 h2 => oleb_trans _ _ _ h1 h2
    have total : ∀ a b : List (Option Scalar),
        (oleb (numKey i a) (numKey i b) || oleb (numKey i b) (numKey i a)) = true :=
      fun a b => oleb_total _ _
    have hsorted := List.sorted_mergeSort trans total rows
    refine ⟨hsorted, ?_, ?_⟩
    · refine hsorted.imp ?_
      intro a b hab hna
      rcases hnb : numKey i b with _ | y
      · rfl
      · rw [hna, hnb] at hab
        simp [oleb] at hab
    · intro v
      have hpair : (rows.filter (fun r => numKey i r = v)).Pairwise
          (fun a b => oleb (numKey i a) (numKey i b)) := by
        apply List.pairwise_of_forall_mem_list
        intro a ha b hb
        have hav : numKey i a = v := of_decide_eq_true (List.mem_filter.mp ha).2
        have hbv : numKey i b = v := of_decide_eq_true (List.mem_filter.mp hb).2
        show oleb (numKey i a) (numKey i b) = true
        rw [hav, hbv]
        exact oleb_refl v
      have hsub : List.Sublist (rows.filter (fun r => numKey i r = v))
          (rows.mergeSort (fun a b => oleb (numKey i a) (numKey i b))) :=
        List.sublist_mergeSort trans total hpair (List.filter_sublist rows)
      have hself : (rows.filter (fun r => numKey i r = v)).filter
          (fun r => numKey i r = v) = rows.filter (fun r => numKey i r = v) :=
        List.filter_eq_self.mpr fun a ha => (List.mem_filter.mp ha).2
      have hsub2 : List.Sublist (rows.filter (fun r => numKey i r = v))
          ((rows.mergeSort (fun a b => oleb (numKey i a) (numKey i b))).filter
            (fun r => numKey i r = v)) := by
        have := hsub.filter (fun r => decide (numKey i r = v))
        rwa [hself] at this
      have hlen : ((rows.mergeSort (fun a b => oleb (numKey i a) (numKey i b))).filter
          (fun r => numKey i r = v)).length =
          (rows.filter (fun r => numKey i r = v)).length :=
        ((List.mergeSort_perm rows _).filter _).length_eq
      exact (hsub2.eq_of_length hlen.symm).symm
  · rw [if_neg hall] at h
    cases h

/-- Witness for C3: sorting a three-row table (with one absent Depth) by
Depth puts 9000 before 12000 and the absent row last. -/
theorem sortRows_sorted_stable_witness :
    sortRows ["Depth"] [[some (Scalar.num 12000)], [none], [some (Scalar.num 9000)]]
        "Depth" =
      .ok ⟨["Depth"], [[some (Scalar.num 9000)], [some (Scalar.num 12000)], [none]]⟩
    ∧ ([[some (Scalar.num 9000)], [some (Scalar.num 12000)], [none]] :
        List (List (Option Scalar))).Pairwise
        (fun a b => oleb (numKey 0 a) (numKey 0 b) = true) := by
  have hs : sortRows ["Depth"]
      [[some (Scalar.num 12000)], [none], [some (Scalar.num 9000)]] "Depth" =
      .ok ⟨["Depth"], [[some (Scalar.num 9000)], [some (Scalar.num 12000)], [none]]⟩ := by
    simp [sortRows, idxOf, rowNumOk, numKey, oleb, List.mergeSort]
  exact ⟨hs, (sortRows_sorted_stable ["Depth"] _ "Depth" 0 _ (by decide) hs).1⟩
